import Mathlib

/-!
Verification development for the ChatList multi-provider prompt dispatch layer.

Shallow embedding of `src/network.py` (class `NetworkClient`) and
`src/models.py` (class `ModelHandler`).  Python dictionaries returned by the
HTTP layer are modelled by a small JSON value type; Python exceptions are
modelled by `Except`; the stateful HTTP session is modelled by an abstract
behaviour function giving the outcome of each attempt.  String operations
(`lower`, `strip`, slicing, searches) are modelled by kernel-computable
functions over character lists; case mapping is ASCII, which agrees with
Python for every pattern the code searches for (all patterns are ASCII).
-/

/-- A single-quote character, written via an escape to keep source text plain. -/
def sqc : String := "\x27"

/-- Wrap a string in single quotes, as Python `repr` does for tame strings. -/
def pyQuote (s : String) : String := sqc ++ s ++ sqc

/-- Substring test on character lists: does `pat` occur contiguously in `l`?
Mirrors Python's `pat in s`. -/
def listContainsB (l pat : List Char) : Bool :=
  if pat.isPrefixOf l then true
  else match l with
    | [] => false
    | _ :: t => listContainsB t pat

/-- Python's `pat in s` substring test. -/
def strContains (s pat : String) : Bool := listContainsB s.data pat.data

/-- Python `str.lower()` (ASCII case mapping; every pattern the code lowers
for is ASCII). -/
def pyLower (s : String) : String := String.mk (s.data.map Char.toLower)

/-- ASCII whitespace, as stripped by Python `str.strip()`. -/
def pyIsSpace (c : Char) : Bool :=
  c == ' ' || c == '\t' || c == '\n' || c == '\r' || c == '\x0b' || c == '\x0c'

/-- Python `str.strip()`. -/
def pyStrip (s : String) : String :=
  String.mk (((s.data.dropWhile pyIsSpace).reverse.dropWhile pyIsSpace).reverse)

/-- Python `str.startswith(pat)`. -/
def pyStartsWith (s pat : String) : Bool := pat.data.isPrefixOf s.data

/-- Python `str.endswith(pat)`. -/
def pyEndsWith (s pat : String) : Bool := pat.data.isSuffixOf s.data

/-- Python `s[:n]` slicing. -/
def pyTake (s : String) (n : Nat) : String := String.mk (s.data.take n)

/-- Python truthiness of an optional string (`None` and `""` are falsy). -/
def pyFalsyStrOpt : Option String → Bool
  | none => true
  | some s => s == ""

/-- JSON values, as produced by `response.json()` at the transport layer.
Numbers are rationals so that the literal `0.7` in request bodies is exact. -/
inductive Json where
  | str : String → Json
  | num : Rat → Json
  | bool : Bool → Json
  | null : Json
  | arr : List Json → Json
  | obj : List (String × Json) → Json

/-- Python type name of a JSON value (used in exception messages). -/
def Json.typeName : Json → String
  | .str _ => "str"
  | .num q => if q.den == 1 then "int" else "float"
  | .bool _ => "bool"
  | .null => "NoneType"
  | .arr _ => "list"
  | .obj _ => "dict"

/-- Python truthiness of a JSON value. -/
def Json.truthy : Json → Bool
  | .str s => s != ""
  | .num q => q != 0
  | .bool b => b
  | .null => false
  | .arr xs => !xs.isEmpty
  | .obj fs => !fs.isEmpty

/-- Key lookup on a JSON object (first matching field); `none` on non-objects. -/
def Json.lookupKey : Json → String → Option Json
  | .obj fs, k => (fs.find? (fun p => p.1 == k)).map (fun p => p.2)
  | _, _ => none

/-- Is this value a Python `dict`? -/
def Json.isObj : Json → Bool
  | .obj _ => true
  | _ => false

/-- Python's `k in d` membership test (`dict` keys, `list` elements). -/
def Json.hasKey : Json → String → Bool
  | .obj fs, k => fs.any (fun p => p.1 == k)
  | .arr xs, k => xs.any (fun v => match v with | .str s => s == k | _ => false)
  | _, _ => false

mutual

/-- Python `repr` of a JSON value (tame strings: no escaping needed). -/
def Json.pyRepr : Json → String
  | .str s => pyQuote s
  | .num q => if q.den == 1 then toString q.num else toString q
  | .bool b => if b then "True" else "False"
  | .null => "None"
  | .arr xs => "[" ++ String.intercalate ", " (jsonListRepr xs) ++ "]"
  | .obj fs => "\x7b" ++ String.intercalate ", " (jsonFieldsRepr fs) ++ "\x7d"

/-- `repr` of the elements of a Python list. -/
def jsonListRepr : List Json → List String
  | [] => []
  | x :: xs => Json.pyRepr x :: jsonListRepr xs

/-- `repr` of the fields of a Python dict. -/
def jsonFieldsRepr : List (String × Json) → List String
  | [] => []
  | (k, v) :: fs => (pyQuote k ++ ": " ++ Json.pyRepr v) :: jsonFieldsRepr fs

end

/-- Python `str` of a JSON value (strings print bare, containers via `repr`). -/
def Json.pyStr : Json → String
  | .str s => s
  | j => j.pyRepr

/-- Escape a string for inclusion in a JSON document (tame subset). -/
def jsonEscape (s : String) : String :=
  s.data.foldl (fun acc c =>
    if c == '\\' then acc ++ "\\\\"
    else if c == '"' then acc ++ "\\\""
    else if c == '\n' then acc ++ "\\n"
    else acc ++ String.singleton c) ""

/-- `n` spaces. -/
def indentSp (n : Nat) : String := String.mk (List.replicate n ' ')

mutual

/-- `json.dumps(value, ensure_ascii=False, indent=2)` at nesting depth `l`. -/
def jsonDumpsAt (l : Nat) : Json → String
  | .str s => "\"" ++ jsonEscape s ++ "\""
  | .num q => if q.den == 1 then toString q.num else toString q
  | .bool b => if b then "true" else "false"
  | .null => "null"
  | .arr [] => "[]"
  | .arr (x :: xs) =>
      "[\n" ++ String.intercalate ",\n" (jsonDumpsList (l + 2) (x :: xs)) ++
      "\n" ++ indentSp l ++ "]"
  | .obj [] => "\x7b\x7d"
  | .obj (f :: fs) =>
      "\x7b\n" ++ String.intercalate ",\n" (jsonDumpsFields (l + 2) (f :: fs)) ++
      "\n" ++ indentSp l ++ "\x7d"

/-- Dump the elements of a JSON array, each on its own indented line. -/
def jsonDumpsList (l : Nat) : List Json → List String
  | [] => []
  | x :: xs => (indentSp l ++ jsonDumpsAt l x) :: jsonDumpsList l xs

/-- Dump the fields of a JSON object, each on its own indented line. -/
def jsonDumpsFields (l : Nat) : List (String × Json) → List String
  | [] => []
  | (k, v) :: fs =>
      (indentSp l ++ "\"" ++ jsonEscape k ++ "\": " ++ jsonDumpsAt l v) :: jsonDumpsFields l fs

end

/-- `json.dumps(response, ensure_ascii=False, indent=2)`. -/
def jsonDumps (j : Json) : String := jsonDumpsAt 0 j

/-- An exception escaping a block of Python code: either an `APIError`
(carrying its message) or any other exception (carrying `str(e)`). -/
inductive SendErr where
  | api : String → SendErr
  | unexpected : String → SendErr

/-- `d[k]` with a string key: `KeyError` on a missing key, `TypeError` on
non-dict values (messages are the Python `str(e)` texts). -/
def Json.itemStr : Json → String → Except SendErr Json
  | .obj fs, k =>
      match (Json.obj fs).lookupKey k with
      | some v => .ok v
      | none => .error (.unexpected (pyQuote k))
  | .arr _, _ => .error (.unexpected "list indices must be integers or slices, not str")
  | .str _, _ => .error (.unexpected "string indices must be integers")
  | j, _ => .error (.unexpected (pyQuote j.typeName ++ " object is not subscriptable"))

/-- `d[i]` with an integer index. -/
def Json.itemNat : Json → Nat → Except SendErr Json
  | .arr xs, i =>
      match xs[i]? with
      | some v => .ok v
      | none => .error (.unexpected "list index out of range")
  | .obj _, i => .error (.unexpected (toString i))
  | .str s, i =>
      match s.data[i]? with
      | some c => .ok (.str (String.singleton c))
      | none => .error (.unexpected "string index out of range")
  | j, _ => .error (.unexpected (pyQuote j.typeName ++ " object is not subscriptable"))

/-- `d.get(k)`: `AttributeError` on non-dict values, else optional lookup. -/
def Json.getAttr : Json → String → Except SendErr (Option Json)
  | .obj fs, k => .ok ((Json.obj fs).lookupKey k)
  | j, _ =>
      .error (.unexpected (pyQuote j.typeName ++ " object has no attribute " ++ pyQuote "get"))

/-- `len(v)`: `TypeError` on unsized values. -/
def Json.pyLen : Json → Except SendErr Nat
  | .arr xs => .ok xs.length
  | .obj fs => .ok fs.length
  | .str s => .ok s.length
  | j => .error (.unexpected ("object of type " ++ pyQuote j.typeName ++ " has no len()"))

/-! ## Transport layer: `NetworkClient.post` (src/network.py, lines 31-149) -/

/-- Constructor arguments of `NetworkClient` (`timeout`, `max_retries`). -/
structure ClientCfg where
  timeout : Nat
  maxRetries : Nat

/-- One HTTP response as seen by the client: status code, lowercasable
`Content-Type` header, raw body text, and the result of `response.json()`
(`none` when the body is not valid JSON). -/
structure HttpResponse where
  status : Nat
  contentType : String
  body : String
  json : Option Json

/-- What `self.session.post` does on one attempt: return a response or raise
one of the `requests` exceptions distinguished by the code. -/
inductive AttemptOutcome where
  | response : HttpResponse → AttemptOutcome
  | timeout : AttemptOutcome
  | connErr : String → AttemptOutcome
  | reqErr : String → AttemptOutcome

/-- Result of `NetworkClient.post`: the returned dictionary, or the message
of the raised `APIError`. -/
inductive PostResult where
  | ok : Json → PostResult
  | apiError : String → PostResult

/-- Message of the HTML-detected-by-headers branch (network.py lines 67-73). -/
def htmlHeaderMsg (url contentType bodyText : String) : String :=
  "Получен HTML вместо JSON ответа. Возможно, неправильный API URL.\n" ++
  "URL: " ++ url ++ "\n" ++
  "Content-Type: " ++ contentType ++ "\n" ++
  "Проверьте, что API URL правильный (например, https://openrouter.ai/api/v1/chat/completions)\n" ++
  "Первые 200 символов ответа: " ++ pyTake bodyText 200

/-- Message of the HTML-detected-after-JSON-failure branch (lines 82-87);
`text` is the stripped body. -/
def htmlBodyMsg (url text : String) : String :=
  "Получен HTML вместо JSON ответа. Возможно, неправильный API URL.\n" ++
  "URL: " ++ url ++ "\n" ++
  "Проверьте, что API URL правильный.\n" ++
  "Первые 200 символов ответа: " ++ pyTake text 200

/-- The 2xx branch of `post` (network.py lines 62-89): reject markup bodies,
parse JSON, and fall back to `{"text": response.text}`. -/
def successResult (url : String) (r : HttpResponse) : PostResult :=
  let contentType := (pyLower r.contentType)
  if strContains contentType "text/html" || pyStartsWith (pyStrip r.body) "<!DOCTYPE" ||
      pyStartsWith (pyStrip r.body) "<html" then
    .apiError (htmlHeaderMsg url contentType r.body)
  else
    match r.json with
    | some j => .ok j
    | none =>
      let text := (pyStrip r.body)
      if pyStartsWith text "<!DOCTYPE" || pyStartsWith text "<html" then
        .apiError (htmlBodyMsg url text)
      else
        .ok (Json.obj [("text", Json.str r.body)])

/-- The fallback message path of the HTTPError handler (network.py lines
129-137), used when the error body is not parseable JSON or message handling
raised; `base` is `"HTTP ошибка <status>"`. -/
def fallbackText (base : String) (r : HttpResponse) : String :=
  let text := pyTake r.body 500
  if strContains (pyLower text) "data policy" || strContains (pyLower text) "privacy" then
    "Ошибка политики данных. Настройте: https://openrouter.ai/settings/privacy"
  else if strContains (pyLower text) "credits" || strContains (pyLower text) "payment" ||
      r.status == 402 then
    "Недостаточно кредитов. Пополните баланс: https://openrouter.ai/settings/credits"
  else
    base ++ ": " ++ text

/-- Suffix appended to data-policy errors (network.py line 118). -/
def privacySuffix : String :=
  "\n\nНастройте политику данных на: https://openrouter.ai/settings/privacy"

/-- Suffix appended to credits errors (network.py line 122). -/
def creditsSuffix : String :=
  "\n\nПопробуйте уменьшить max_tokens или пополните баланс на: https://openrouter.ai/settings/credits"

/-- Payment-required wrapper (network.py lines 124 and 142). -/
def paymentWrap (msg : String) : String :=
  "Недостаточно кредитов для выполнения запроса.\n\n" ++ msg ++
  "\n\nПополните баланс: https://openrouter.ai/settings/credits"

/-- The `elif "message" in error_data` branch (network.py lines 114-126):
phrase-based augmentation plus the optional `(код: ...)` suffix. -/
def messageBranch (base : String) (r : HttpResponse) (data mv : Json) : String :=
  match mv with
  | .str m =>
    let m1 :=
      if strContains (pyLower m) "data policy" || strContains (pyLower m) "privacy" then
        m ++ privacySuffix
      else if strContains (pyLower m) "credits" || strContains (pyLower m) "payment" ||
          r.status == 402 then
        (if strContains (pyLower m) "credits" then m ++ creditsSuffix else paymentWrap m)
      else m
    match data.lookupKey "code" with
    | some c => m1 ++ " (код: " ++ c.pyStr ++ ")"
    | none => m1
  | _ => fallbackText base r

/-- Message of the `APIError` raised by the HTTPError handler (network.py
lines 103-144). -/
def httpErrorMsg (r : HttpResponse) : String :=
  let base := "HTTP ошибка " ++ toString r.status
  let em :=
    match r.json with
    | some data =>
      match data.lookupKey "error" with
      | some errInfo =>
        (match errInfo with
         | Json.obj _ =>
           (match errInfo.lookupKey "message" with
            | some v => v.pyStr
            | none => errInfo.pyStr)
         | _ => errInfo.pyStr)
      | none =>
        match data.lookupKey "message" with
        | some mv => messageBranch base r data mv
        | none => data.pyStr
    | none => fallbackText base r
  if r.status == 402 && !(strContains (pyLower em) "credits") &&
      !(strContains (pyLower em) "payment") then
    paymentWrap em
  else em

/-- The retry loop of `NetworkClient.post` (`for attempt in range(
self.max_retries)`), recursing over the list of remaining attempt indices,
for an attempt behaviour `beh`.  Returns the result together with the list
of `time.sleep` delays performed; the `[]` case is the `raise` after the
loop (network.py line 149). -/
def postLoop (cfg : ClientCfg) (beh : Nat → AttemptOutcome) (url : String) :
    List Nat → PostResult × List Nat
  | [] =>
    (.apiError ("Не удалось выполнить запрос к " ++ url ++ " после " ++
      toString cfg.maxRetries ++ " попыток"), [])
  | attempt :: rest =>
    match beh attempt with
    | .response r =>
      if 400 ≤ r.status ∧ r.status < 600 then
        (.apiError (httpErrorMsg r), [])
      else
        (successResult url r, [])
    | .timeout =>
      if attempt < cfg.maxRetries - 1 then
        let res := postLoop cfg beh url rest
        (res.1, 2 ^ attempt :: res.2)
      else
        (.apiError ("Таймаут запроса к " ++ url ++ " после " ++
          toString cfg.maxRetries ++ " попыток"), [])
    | .connErr e =>
      if attempt < cfg.maxRetries - 1 then
        let res := postLoop cfg beh url rest
        (res.1, 2 ^ attempt :: res.2)
      else
        (.apiError ("Ошибка подключения к " ++ url ++ ": " ++ e), [])
    | .reqErr e =>
      (.apiError ("Ошибка запроса к " ++ url ++ ": " ++ e), [])

/-- `NetworkClient.post` (src/network.py lines 31-149). -/
def networkPost (cfg : ClientCfg) (beh : Nat → AttemptOutcome) (url : String) :
    PostResult × List Nat :=
  postLoop cfg beh url (List.range cfg.maxRetries)

/-! ## Dispatch layer: `ModelHandler` (src/models.py) -/

/-- One model row as handed to `ModelHandler`.  `api_url` is accessed as
`model["api_url"]` in the source (a `KeyError` when absent); the other
fields are read with `model.get(...)` and a default, so they are optional. -/
structure ModelCfg where
  name : Option String
  api_url : Option String
  api_id : Option String
  model_type : Option String

/-- One HTTP request handed to `NetworkClient.post`. -/
structure HttpRequest where
  url : String
  headers : List (String × String)
  body : Json

/-- `list(keys)` rendered as Python prints a list of strings. -/
def pyListStr (ks : List String) : String :=
  "[" ++ String.intercalate ", " (ks.map pyQuote) ++ "]"

/-- `d.keys()`: `AttributeError` on non-dict values. -/
def Json.keysAttr : Json → Except SendErr (List String)
  | .obj fs => .ok (fs.map (fun p => p.1))
  | j => .error (.unexpected (pyQuote j.typeName ++ " object has no attribute " ++
      pyQuote "keys"))

/-- Message of the misconfigured-credential-name error (models.py lines 48-53). -/
def looksLikeModelMsg (api_id : String) : String :=
  "Ошибка: " ++ pyQuote api_id ++
  " выглядит как имя модели, а не как переменная окружения.\n\n" ++
  "В поле " ++ pyQuote "API ID" ++
  " должно быть имя переменной из файла .env (например, OPENROUTER_API_KEY),\n" ++
  "а не имя модели (например, meta-llama/llama-3.3-70b-instruct).\n\n" ++
  "Имя модели указывается в поле " ++ pyQuote "Название" ++ " модели."

/-- Message of the missing-credential error repeated in every adapter
(e.g. models.py lines 112-118). -/
def keyNotFoundMsg (api_id : String) : String :=
  "API-ключ не найден для переменной " ++ pyQuote api_id ++ ".\n\n" ++
  "Проверьте:\n" ++
  "1. Файл .env существует и содержит переменную " ++ api_id ++ "\n" ++
  "2. В файле .env есть строка: " ++ api_id ++ "=ваш_ключ\n" ++
  "3. Переменная указана правильно (без пробелов, кавычек и т.д.)"

/-- `ModelHandler.get_api_key` (models.py lines 31-55): environment lookup by
variable name, raising `APIError` when the lookup fails and the name looks
like a model identifier (contains a path separator). -/
def get_api_key (env : String → Option String) (api_id : String) :
    Except String (Option String) :=
  if api_id == "" || (pyStrip api_id) == "" then .ok none
  else
    let api_key := env (pyStrip api_id)
    if pyFalsyStrOpt api_key &&
        (strContains api_id "/" || strContains api_id "\\") then
      .error (looksLikeModelMsg api_id)
    else .ok api_key

/-- The credential prelude repeated verbatim at the top of every `_send_to_*`
method (e.g. models.py lines 106-118): check `api_id`, resolve the key,
fail when it is missing. -/
def requireApiKey (env : String → Option String) (model : ModelCfg) :
    Except SendErr String :=
  let api_id := (pyStrip (model.api_id.getD ""))
  if api_id == "" then .error (.api "API ID не указан в настройках модели")
  else
    match get_api_key env api_id with
    | .error m => .error (.api m)
    | .ok key =>
      if pyFalsyStrOpt key then .error (.api (keyNotFoundMsg api_id))
      else .ok (key.getD "")

/-- The `except APIError: raise / except Exception as e: raise APIError(pfx +
str(e))` pattern closing every adapter's `try` block. -/
def wrapTry (pfx : String) : Except SendErr Json → Except SendErr Json
  | .ok j => .ok j
  | .error (.api m) => .error (.api m)
  | .error (.unexpected m) => .error (.api (pfx ++ m))

/-- A call to `self.network_client.post` as seen inside a `try` block: the
returned dictionary or the `APIError` it raised. -/
def netCall (net : HttpRequest → PostResult) (req : HttpRequest) :
    Except SendErr Json :=
  match net req with
  | .ok j => .ok j
  | .apiError m => .error (.api m)

/-- The response handling shared by `_send_to_openai`, `_send_to_deepseek`
and `_send_to_groq` (e.g. models.py lines 141-144): take
`choices[0].message.content` or raise the adapter's unexpected-format error. -/
def parseOpenaiStyle (badFmt : String) (response : Json) : Except SendErr Json :=
  if response.hasKey "choices" then
    match response.itemStr "choices" with
    | .error e => .error e
    | .ok cs =>
      match cs.pyLen with
      | .error e => .error e
      | .ok n =>
        if 0 < n then
          match cs.itemNat 0 with
          | .error e => .error e
          | .ok c0 =>
            match c0.itemStr "message" with
            | .error e => .error e
            | .ok m => m.itemStr "content"
        else .error (.api badFmt)
  else .error (.api badFmt)

/-- Request body of `_send_to_openai` (models.py lines 129-135). -/
def openaiBody (model : ModelCfg) (prompt : String) : Json :=
  Json.obj [("model", Json.str (model.name.getD "gpt-3.5-turbo")),
    ("messages", Json.arr [Json.obj [("role", Json.str "user"),
      ("content", Json.str prompt)]]),
    ("temperature", Json.num ((7 : Rat) / 10))]

/-- `ModelHandler._send_to_openai` (models.py lines 95-149).  Returns the
result together with the list of HTTP requests issued. -/
def sendToOpenai (env : String → Option String) (net : HttpRequest → PostResult)
    (model : ModelCfg) (prompt : String) : Except SendErr Json × List HttpRequest :=
  match requireApiKey env model with
  | .error e => (.error e, [])
  | .ok api_key =>
    match model.api_url with
    | none => (.error (.unexpected (pyQuote "api_url")), [])
    | some url =>
      let headers := [("Authorization", "Bearer " ++ api_key),
        ("Content-Type", "application/json")]
      let req : HttpRequest := ⟨url, headers, openaiBody model prompt⟩
      (wrapTry "Ошибка при запросе к OpenAI: "
        ((netCall net req).bind
          (parseOpenaiStyle "Неожиданный формат ответа от OpenAI API")), [req])

/-- Request body of `_send_to_deepseek` (models.py lines 184-190). -/
def deepseekBody (model : ModelCfg) (prompt : String) : Json :=
  Json.obj [("model", Json.str (model.name.getD "deepseek-chat")),
    ("messages", Json.arr [Json.obj [("role", Json.str "user"),
      ("content", Json.str prompt)]]),
    ("temperature", Json.num ((7 : Rat) / 10))]

/-- `ModelHandler._send_to_deepseek` (models.py lines 151-203). -/
def sendToDeepseek (env : String → Option String) (net : HttpRequest → PostResult)
    (model : ModelCfg) (prompt : String) : Except SendErr Json × List HttpRequest :=
  match requireApiKey env model with
  | .error e => (.error e, [])
  | .ok api_key =>
    match model.api_url with
    | none => (.error (.unexpected (pyQuote "api_url")), [])
    | some url =>
      let headers := [("Authorization", "Bearer " ++ api_key),
        ("Content-Type", "application/json")]
      let req : HttpRequest := ⟨url, headers, deepseekBody model prompt⟩
      (wrapTry "Ошибка при запросе к DeepSeek: "
        ((netCall net req).bind
          (parseOpenaiStyle "Неожиданный формат ответа от DeepSeek API")), [req])

/-- Request body of `_send_to_groq` (models.py lines 380-386): `messages`
first, then `model`, then `temperature`. -/
def groqBody (model : ModelCfg) (prompt : String) : Json :=
  Json.obj [("messages", Json.arr [Json.obj [("role", Json.str "user"),
      ("content", Json.str prompt)]]),
    ("model", Json.str (model.name.getD "mixtral-8x7b-32768")),
    ("temperature", Json.num ((7 : Rat) / 10))]

/-- `ModelHandler._send_to_groq` (models.py lines 347-399). -/
def sendToGroq (env : String → Option String) (net : HttpRequest → PostResult)
    (model : ModelCfg) (prompt : String) : Except SendErr Json × List HttpRequest :=
  match requireApiKey env model with
  | .error e => (.error e, [])
  | .ok api_key =>
    match model.api_url with
    | none => (.error (.unexpected (pyQuote "api_url")), [])
    | some url =>
      let headers := [("Authorization", "Bearer " ++ api_key),
        ("Content-Type", "application/json")]
      let req : HttpRequest := ⟨url, headers, groqBody model prompt⟩
      (wrapTry "Ошибка при запросе к Groq: "
        ((netCall net req).bind
          (parseOpenaiStyle "Неожиданный формат ответа от Groq API")), [req])

/-- Canonical OpenRouter chat-completions URL (models.py line 234). -/
def openrouterCanonical : String := "https://openrouter.ai/api/v1/chat/completions"

/-- The OpenRouter URL self-correction block (models.py lines 233-248),
applied to the stripped configured URL. -/
def openrouterFixUrl (url : String) : String :=
  if strContains (pyLower url) "openrouter.ai" &&
      !(strContains (pyLower url) "/api/v1/chat/completions") then
    if strContains url "/" && url.data.count '/' > 3 then openrouterCanonical
    else if !(pyEndsWith url "/api/v1/chat/completions") then openrouterCanonical
    else url
  else url

/-- Message of the HTML-in-text-field error (models.py lines 287-295). -/
def orHtmlMsg (url text : String) : String :=
  "Получен HTML вместо JSON ответа от OpenRouter.\n\n" ++
  "Возможные причины:\n" ++
  "1. Неправильный API URL. Должен быть: https://openrouter.ai/api/v1/chat/completions\n" ++
  "2. Проблема с аутентификацией (неверный API-ключ)\n" ++
  "3. Сервер вернул HTML-страницу с ошибкой\n\n" ++
  "Текущий URL: " ++ url ++ "\n" ++
  "Первые 200 символов ответа: " ++ pyTake text 200

/-- Message of the unexpected-format error (models.py lines 331-340). -/
def orBadFmtMsg (model_name url : String) (keys : List String) (response : Json) :
    String :=
  "Неожиданный формат ответа от OpenRouter API.\n" ++
  "Отправлено: model=" ++ model_name ++ ", URL=" ++ url ++ "\n" ++
  "Структура ответа: " ++ pyListStr keys ++ "\n" ++
  "Проверьте:\n" ++
  "1. Правильность API URL (должен быть: https://openrouter.ai/api/v1/chat/completions)\n" ++
  "2. Правильность API-ключа в файле .env\n" ++
  "3. Правильность идентификатора модели\n\n" ++
  "Полный ответ: " ++ pyTake (jsonDumps response) 500 ++ "..."

/-- The HTML-in-text-field check opening the OpenRouter response handling
(models.py lines 283-295). -/
def orHtmlCheck (url : String) (response : Json) : Except SendErr Unit :=
  if response.hasKey "text" then
    match response.getAttr "text" with
    | .error e => .error e
    | .ok tOpt =>
      match tOpt.getD (Json.str "") with
      | .str s =>
        if pyStartsWith (pyStrip s) "<!DOCTYPE" || pyStartsWith (pyStrip s) "<html" then
          .error (.api (orHtmlMsg url s))
        else .ok ()
      | _ => .ok ()
  else .ok ()

/-- Response handling of `_send_to_openrouter` (models.py lines 283-340):
HTML check, explicit-error check, then choices extraction. -/
def parseOpenrouter (model_name url : String) (response : Json) :
    Except SendErr Json :=
  match orHtmlCheck url response with
  | .error e => .error e
  | .ok _ =>
    if response.hasKey "error" then
      match response.getAttr "error" with
      | .error e => .error e
      | .ok errOpt =>
        let em := errOpt.getD (Json.obj [])
        let errText :=
          match em with
          | Json.obj _ =>
            (match em.lookupKey "message" with
             | some v => v.pyStr
             | none => em.pyStr)
          | _ => em.pyStr
        .error (.api ("Ошибка от OpenRouter API: " ++ errText))
    else
      if response.hasKey "choices" then
        match response.itemStr "choices" with
        | .error e => .error e
        | .ok cs =>
          match cs.pyLen with
          | .error e => .error e
          | .ok n =>
            if 0 < n then
              match cs.itemNat 0 with
              | .error e => .error e
              | .ok c0 =>
                if c0.hasKey "message" then
                  match c0.itemStr "message" with
                  | .error e => .error e
                  | .ok m =>
                    match m.getAttr "content" with
                    | .error e => .error e
                    | .ok contentOpt =>
                      if (match contentOpt with
                          | some c => c.truthy
                          | none => false) then
                        .ok (contentOpt.getD Json.null)
                      else if m.hasKey "text" then m.itemStr "text"
                      else
                        match m.keysAttr with
                        | .error e => .error e
                        | .ok ks =>
                          .error (.api ("Ответ не содержит текста. Структура: " ++
                            pyListStr ks))
                else if c0.hasKey "text" then c0.itemStr "text"
                else
                  match c0.keysAttr with
                  | .error e => .error e
                  | .ok ks =>
                    .error (.api ("Неожиданная структура choice: " ++ pyListStr ks))
            else
              match response.keysAttr with
              | .error e => .error e
              | .ok ks => .error (.api (orBadFmtMsg model_name url ks response))
      else
        match response.keysAttr with
        | .error e => .error e
        | .ok ks => .error (.api (orBadFmtMsg model_name url ks response))

/-- Request body of `_send_to_openrouter` (models.py lines 271-278),
including the `max_tokens` cap. -/
def openrouterBody (model_name prompt : String) : Json :=
  Json.obj [("model", Json.str model_name),
    ("messages", Json.arr [Json.obj [("role", Json.str "user"),
      ("content", Json.str prompt)]]),
    ("temperature", Json.num ((7 : Rat) / 10)),
    ("max_tokens", Json.num 4096)]

/-- `ModelHandler._send_to_openrouter` (models.py lines 205-345). -/
def sendToOpenrouter (env : String → Option String) (net : HttpRequest → PostResult)
    (model : ModelCfg) (prompt : String) : Except SendErr Json × List HttpRequest :=
  match requireApiKey env model with
  | .error e => (.error e, [])
  | .ok api_key =>
    match model.api_url with
    | none => (.error (.unexpected (pyQuote "api_url")), [])
    | some rawUrl =>
      let url := openrouterFixUrl (pyStrip rawUrl)
      let headers := [("Authorization", "Bearer " ++ api_key),
        ("Content-Type", "application/json"),
        ("HTTP-Referer", "https://github.com/yourusername/chatlist"),
        ("X-Title", "ChatList")]
      let model_name0 := (pyStrip (model.name.getD ""))
      let model_name := if model_name0 == "" then "openai/gpt-3.5-turbo" else model_name0
      let req : HttpRequest := ⟨url, headers, openrouterBody model_name prompt⟩
      (wrapTry "Ошибка при запросе к OpenRouter: "
        ((netCall net req).bind (parseOpenrouter model_name url)), [req])

/-- The choices part of `_send_generic`'s response handling (models.py lines
444-449); `ok none` means control falls through to the later field checks. -/
def parseGenericChoices (response : Json) : Except SendErr (Option Json) :=
  if response.hasKey "choices" then
    match response.itemStr "choices" with
    | .error e => .error e
    | .ok cs =>
      match cs.pyLen with
      | .error e => .error e
      | .ok n =>
        if 0 < n then
          match cs.itemNat 0 with
          | .error e => .error e
          | .ok c0 =>
            if c0.hasKey "message" then
              match c0.itemStr "message" with
              | .error e => .error e
              | .ok m =>
                match m.itemStr "content" with
                | .error e => .error e
                | .ok v => .ok (some v)
            else if c0.hasKey "text" then
              match c0.itemStr "text" with
              | .error e => .error e
              | .ok v => .ok (some v)
            else .ok none
        else .ok none
  else .ok none

/-- Response handling of `_send_generic` (models.py lines 443-458): choices,
then top-level `text`, then `response`, finally the stringified payload. -/
def parseGeneric (response : Json) : Except SendErr Json :=
  match parseGenericChoices response with
  | .error e => .error e
  | .ok (some v) => .ok v
  | .ok none =>
    if response.hasKey "text" then response.itemStr "text"
    else if response.hasKey "response" then response.itemStr "response"
    else .ok (.str response.pyStr)

/-- Request body of `_send_generic` (models.py lines 433-438): no
`temperature` field. -/
def genericBody (model : ModelCfg) (prompt : String) : Json :=
  Json.obj [("model", Json.str (model.name.getD "default")),
    ("messages", Json.arr [Json.obj [("role", Json.str "user"),
      ("content", Json.str prompt)]])]

/-- `ModelHandler._send_generic` (models.py lines 401-463). -/
def sendGeneric (env : String → Option String) (net : HttpRequest → PostResult)
    (model : ModelCfg) (prompt : String) : Except SendErr Json × List HttpRequest :=
  match requireApiKey env model with
  | .error e => (.error e, [])
  | .ok api_key =>
    match model.api_url with
    | none => (.error (.unexpected (pyQuote "api_url")), [])
    | some url =>
      let headers := [("Authorization", "Bearer " ++ api_key),
        ("Content-Type", "application/json")]
      let req : HttpRequest := ⟨url, headers, genericBody model prompt⟩
      (wrapTry "Ошибка при запросе к API: "
        ((netCall net req).bind parseGeneric), [req])

/-- `ModelHandler.send_prompt_to_model` (models.py lines 66-93): select the
adapter by case-insensitive substring match on the model-type tag. -/
def send_prompt_to_model (env : String → Option String)
    (net : HttpRequest → PostResult) (model : ModelCfg) (prompt : String) :
    Except SendErr Json × List HttpRequest :=
  let model_type := (pyLower (model.model_type.getD ""))
  if strContains model_type "openrouter" then sendToOpenrouter env net model prompt
  else if strContains model_type "openai" || strContains model_type "gpt" then
    sendToOpenai env net model prompt
  else if strContains model_type "deepseek" then sendToDeepseek env net model prompt
  else if strContains model_type "groq" then sendToGroq env net model prompt
  else sendGeneric env net model prompt

/-- One entry of the list returned by `send_prompt_to_all_active`
(models.py lines 482-505). -/
structure DispatchResult where
  model : ModelCfg
  response : Option Json
  error : Option String

/-- The per-model body of the fan-out loop (models.py lines 481-505): run the
send, catch `APIError` as its message, catch any other exception as
`"Неожиданная ошибка: " + str(e)`. -/
def dispatchOneResult (env : String → Option String)
    (net : HttpRequest → PostResult) (model : ModelCfg) (prompt : String) :
    DispatchResult :=
  match (send_prompt_to_model env net model prompt).1 with
  | .ok r => ⟨model, some r, none⟩
  | .error (.api m) => ⟨model, none, some m⟩
  | .error (.unexpected m) => ⟨model, none, some ("Неожиданная ошибка: " ++ m)⟩

/-- `ModelHandler.send_prompt_to_all_active` (models.py lines 465-507) over a
given list of active models.  The result list doubles as the stream of
callback deliveries: entries are produced one per model, in list order. -/
def send_prompt_to_all_active (env : String → Option String)
    (net : HttpRequest → PostResult) (models : List ModelCfg) (prompt : String) :
    List DispatchResult :=
  models.map (fun m => dispatchOneResult env net m prompt)

/-! ## Bridging lemmas -/

/-- On objects, membership agrees with lookup. -/
theorem Json.hasKey_obj (fs : List (String × Json)) (k : String) :
    (Json.obj fs).hasKey k = ((Json.obj fs).lookupKey k).isSome := by
  simp only [Json.hasKey, Json.lookupKey, Option.isSome_map']
  induction fs with
  | nil => rfl
  | cons p t ih =>
    by_cases h : (p.1 == k) = true
    · simp [List.any_cons, List.find?_cons_of_pos _ h, h]
    · simp [List.any_cons, List.find?_cons_of_neg _ h, h, ih]

/-- A successful lookup implies membership, on any value. -/
theorem Json.hasKey_of_lookup {j : Json} {k : String} {v : Json}
    (h : j.lookupKey k = some v) : j.hasKey k = true := by
  cases j with
  | obj fs => rw [Json.hasKey_obj, h]; rfl
  | str s => exact absurd h (by simp [Json.lookupKey])
  | num q => exact absurd h (by simp [Json.lookupKey])
  | bool b => exact absurd h (by simp [Json.lookupKey])
  | null => exact absurd h (by simp [Json.lookupKey])
  | arr xs => exact absurd h (by simp [Json.lookupKey])

/-- A failed lookup on an object implies non-membership. -/
theorem Json.hasKey_eq_false_of_lookup_none {fs : List (String × Json)} {k : String}
    (h : (Json.obj fs).lookupKey k = none) : (Json.obj fs).hasKey k = false := by
  rw [Json.hasKey_obj, h]; rfl

/-- Subscripting delivers the looked-up value. -/
theorem Json.itemStr_of_lookup {j : Json} {k : String} {v : Json}
    (h : j.lookupKey k = some v) : j.itemStr k = .ok v := by
  cases j with
  | obj fs => simp [Json.itemStr, h]
  | str s => exact absurd h (by simp [Json.lookupKey])
  | num q => exact absurd h (by simp [Json.lookupKey])
  | bool b => exact absurd h (by simp [Json.lookupKey])
  | null => exact absurd h (by simp [Json.lookupKey])
  | arr xs => exact absurd h (by simp [Json.lookupKey])

/-- The result entry of the fan-out loop is always tagged with its model. -/
theorem dispatchOneResult_model (env : String → Option String)
    (net : HttpRequest → PostResult) (model : ModelCfg) (prompt : String) :
    (dispatchOneResult env net model prompt).model = model := by
  unfold dispatchOneResult
  split <;> rfl

/-- `range max_retries` starts with attempt `0`. -/
theorem range_maxRetries_cons (M : Nat) (h : 0 < M) :
    List.range M = 0 :: List.range' 1 (M - 1) := by
  rw [List.range_eq_range', show M = (M - 1) + 1 by omega]
  exact List.range'_succ 0 (M - 1) 1

/-- An HTTP error status on the first attempt is classified immediately,
with no retry and no delay. -/
theorem networkPost_response0 (cfg : ClientCfg) (beh : Nat → AttemptOutcome)
    (url : String) (r : HttpResponse) (hmr : 0 < cfg.maxRetries)
    (h0 : beh 0 = .response r) (h4 : 400 ≤ r.status) (h6 : r.status < 600) :
    networkPost cfg beh url = (.apiError (httpErrorMsg r), []) := by
  unfold networkPost
  rw [range_maxRetries_cons _ hmr]
  simp only [postLoop, h0]
  rw [if_pos ⟨h4, h6⟩]

/-- A non-error status on the first attempt goes to the success handling. -/
theorem networkPost_success0 (cfg : ClientCfg) (beh : Nat → AttemptOutcome)
    (url : String) (r : HttpResponse) (hmr : 0 < cfg.maxRetries)
    (h0 : beh 0 = .response r) (hns : ¬(400 ≤ r.status ∧ r.status < 600)) :
    networkPost cfg beh url = (successResult url r, []) := by
  unfold networkPost
  rw [range_maxRetries_cons _ hmr]
  simp only [postLoop, h0]
  rw [if_neg hns]

/-- If every attempt times out, the loop over attempts `a, a+1, ...` sleeps
`2^a, 2^(a+1), ...` and ends in the timeout error. -/
theorem postLoop_timeout_all (cfg : ClientCfg) (beh : Nat → AttemptOutcome)
    (url : String) (hb : ∀ n, beh n = .timeout) :
    ∀ n a, a + n = cfg.maxRetries → 0 < n →
      postLoop cfg beh url (List.range' a n) =
        (.apiError ("Таймаут запроса к " ++ url ++ " после " ++
          toString cfg.maxRetries ++ " попыток"),
         (List.range' a (n - 1)).map (fun i => 2 ^ i)) := by
  intro n
  induction n with
  | zero => intro a _ h; omega
  | succ n ih =>
    intro a ha _
    rw [List.range'_succ]
    simp only [postLoop, hb a]
    by_cases h2 : a < cfg.maxRetries - 1
    · rw [if_pos h2]
      have hn : 0 < n := by omega
      rw [ih (a + 1) (by omega) hn]
      simp only [Nat.add_sub_cancel]
      rw [show n = (n - 1) + 1 by omega, List.range'_succ]
      simp [List.map_cons]
    · rw [if_neg h2]
      have hn0 : n = 0 := by omega
      subst hn0
      simp [List.range']

/-- If every attempt raises a connection error, the loop backs off the same
way and ends in the connection error. -/
theorem postLoop_connErr_all (cfg : ClientCfg) (beh : Nat → AttemptOutcome)
    (url e : String) (hb : ∀ n, beh n = .connErr e) :
    ∀ n a, a + n = cfg.maxRetries → 0 < n →
      postLoop cfg beh url (List.range' a n) =
        (.apiError ("Ошибка подключения к " ++ url ++ ": " ++ e),
         (List.range' a (n - 1)).map (fun i => 2 ^ i)) := by
  intro n
  induction n with
  | zero => intro a _ h; omega
  | succ n ih =>
    intro a ha _
    rw [List.range'_succ]
    simp only [postLoop, hb a]
    by_cases h2 : a < cfg.maxRetries - 1
    · rw [if_pos h2]
      have hn : 0 < n := by omega
      rw [ih (a + 1) (by omega) hn]
      simp only [Nat.add_sub_cancel]
      rw [show n = (n - 1) + 1 by omega, List.range'_succ]
      simp [List.map_cons]
    · rw [if_neg h2]
      have hn0 : n = 0 := by omega
      subst hn0
      simp [List.range']

/-! ## Claims -/

/-- C1: a dispatch over a list of N active endpoints delivers exactly N
outcomes, one per endpoint, in the order supplied, each tagged with its
originating endpoint; an `APIError` or any unexpected exception on one
endpoint is recorded as that endpoint's error (the latter prefixed
`"Неожиданная ошибка: "`, the Unknown kind) and never prevents the
subsequent endpoints from being attempted. -/
theorem dispatch_fanout (env : String → Option String) (net : HttpRequest → PostResult)
    (models : List ModelCfg) (prompt : String) :
    (send_prompt_to_all_active env net models prompt).length = models.length ∧
    (∀ (i : Nat) (m : ModelCfg), models[i]? = some m →
      (send_prompt_to_all_active env net models prompt)[i]? =
        some (dispatchOneResult env net m prompt)) ∧
    (∀ (i : Nat) (m : ModelCfg), models[i]? = some m →
      ((send_prompt_to_all_active env net models prompt)[i]?).map
        DispatchResult.model = some m) ∧
    (∀ m s, (send_prompt_to_model env net m prompt).1 = .error (.unexpected s) →
      dispatchOneResult env net m prompt =
        ⟨m, none, some ("Неожиданная ошибка: " ++ s)⟩) := by
  refine ⟨by simp [send_prompt_to_all_active], ?_, ?_, ?_⟩
  · intro i m hm
    simp [send_prompt_to_all_active, hm]
  · intro i m hm
    simp [send_prompt_to_all_active, hm, dispatchOneResult_model]
  · intro m s hs
    unfold dispatchOneResult
    rw [hs]

/-- Witness for `dispatch_fanout`: one endpoint whose row lacks `api_url`,
whose `KeyError` is caught and recorded as an Unknown-kind error entry. -/
theorem dispatch_fanout_witness :
    (send_prompt_to_all_active (fun _ => some "k") (fun _ => .apiError "boom")
      [⟨some "n", none, some "K", some ""⟩] "hi").length = 1 ∧
    (send_prompt_to_all_active (fun _ => some "k") (fun _ => .apiError "boom")
      [⟨some "n", none, some "K", some ""⟩] "hi")[0]? =
      some (dispatchOneResult (fun _ => some "k") (fun _ => .apiError "boom")
        ⟨some "n", none, some "K", some ""⟩ "hi") ∧
    dispatchOneResult (fun _ => some "k") (fun _ => .apiError "boom")
        ⟨some "n", none, some "K", some ""⟩ "hi" =
      ⟨⟨some "n", none, some "K", some ""⟩, none,
        some ("Неожиданная ошибка: " ++ pyQuote "api_url")⟩ := by
  obtain ⟨h1, h2, _h3, h4⟩ := dispatch_fanout (fun _ => some "k")
    (fun _ => .apiError "boom") [⟨some "n", none, some "K", some ""⟩] "hi"
  exact ⟨h1, h2 0 _ rfl, h4 _ (pyQuote "api_url") rfl⟩

/-- C2: only timeouts and connection errors are retried, sleeping `2^attempt`
seconds (attempts 0-indexed) between attempts, up to `max_retries` total
attempts, after which the last classified failure is surfaced; an HTTP
4xx/5xx response is classified immediately on the first attempt with no
retry and no delay, as is any other request exception; the delays are
strictly increasing. -/
theorem retry_policy (cfg : ClientCfg) (beh : Nat → AttemptOutcome) (url : String)
    (hmr : 0 < cfg.maxRetries) :
    ((∀ n, beh n = .timeout) →
      networkPost cfg beh url =
        (.apiError ("Таймаут запроса к " ++ url ++ " после " ++
          toString cfg.maxRetries ++ " попыток"),
         (List.range (cfg.maxRetries - 1)).map (fun i => 2 ^ i))) ∧
    (∀ e, (∀ n, beh n = .connErr e) →
      networkPost cfg beh url =
        (.apiError ("Ошибка подключения к " ++ url ++ ": " ++ e),
         (List.range (cfg.maxRetries - 1)).map (fun i => 2 ^ i))) ∧
    (∀ r, beh 0 = .response r → 400 ≤ r.status → r.status < 600 →
      networkPost cfg beh url = (.apiError (httpErrorMsg r), [])) ∧
    (∀ e, beh 0 = .reqErr e →
      networkPost cfg beh url =
        (.apiError ("Ошибка запроса к " ++ url ++ ": " ++ e), [])) ∧
    ((List.range (cfg.maxRetries - 1)).map (fun i => (2 : Nat) ^ i)).Pairwise (· < ·) := by
  refine ⟨?_, ?_, ?_, ?_, ?_⟩
  · intro hb
    unfold networkPost
    rw [List.range_eq_range']
    rw [postLoop_timeout_all cfg beh url hb cfg.maxRetries 0 (by omega) hmr]
    rw [← List.range_eq_range']
  · intro e hb
    unfold networkPost
    rw [List.range_eq_range']
    rw [postLoop_connErr_all cfg beh url e hb cfg.maxRetries 0 (by omega) hmr]
    rw [← List.range_eq_range']
  · intro r h0 h4 h6
    exact networkPost_response0 cfg beh url r hmr h0 h4 h6
  · intro e h0
    unfold networkPost
    rw [range_maxRetries_cons _ hmr]
    simp only [postLoop, h0]
  · exact List.Pairwise.map _ (fun a b hab => Nat.pow_lt_pow_right (by norm_num) hab)
      (List.pairwise_lt_range _)

/-- Witness for `retry_policy` at `max_retries = 3`: three timeouts sleep
1 and 2 seconds and surface the timeout error; an HTTP 429 is classified
immediately with no delays. -/
theorem retry_policy_witness :
    networkPost ⟨30, 3⟩ (fun _ => .timeout) "https://api.example" =
      (.apiError "Таймаут запроса к https://api.example после 3 попыток", [1, 2]) ∧
    networkPost ⟨30, 3⟩ (fun _ => .response ⟨429, "application/json", "rate limited",
        some (Json.obj [("error", Json.obj [("message", Json.str "Rate limit exceeded")])])⟩)
      "https://api.example" =
      (.apiError "Rate limit exceeded", []) := by
  constructor
  · have h := (retry_policy ⟨30, 3⟩ (fun _ => .timeout) "https://api.example"
      (by norm_num)).1 (fun n => rfl)
    exact h.trans rfl
  · have h := (retry_policy ⟨30, 3⟩
      (fun _ => .response ⟨429, "application/json", "rate limited",
        some (Json.obj [("error", Json.obj [("message", Json.str "Rate limit exceeded")])])⟩)
      "https://api.example" (by norm_num)).2.2.1
      ⟨429, "application/json", "rate limited",
        some (Json.obj [("error", Json.obj [("message", Json.str "Rate limit exceeded")])])⟩
      rfl (by norm_num) (by norm_num)
    exact h.trans rfl

/-- Counterexample for C3: the transport client gives statuses 401, 429 and
500 the identical classification — the same `APIError` carrying only the
body's `error.message` text — so no distinct AuthFailure or RateLimited
kind exists for 401/403/429; only 402 receives special treatment. -/
theorem status_mapping_counterexample :
    networkPost ⟨30, 3⟩ (fun _ => .response ⟨401, "application/json", "",
      some (Json.obj [("error", Json.obj [("message", Json.str "bad")])])⟩) "u" =
      (.apiError "bad", []) ∧
    networkPost ⟨30, 3⟩ (fun _ => .response ⟨429, "application/json", "",
      some (Json.obj [("error", Json.obj [("message", Json.str "bad")])])⟩) "u" =
      (.apiError "bad", []) ∧
    networkPost ⟨30, 3⟩ (fun _ => .response ⟨500, "application/json", "",
      some (Json.obj [("error", Json.obj [("message", Json.str "bad")])])⟩) "u" =
      (.apiError "bad", []) := ⟨rfl, rfl, rfl⟩

/-- C3 (amended): for every HTTP error response, the failure message is
built from the parsed error body when present (preferring the nested
`error.message` field), falling back to the raw response text truncated to
500 characters when the body is not JSON; only status 402 receives a
distinct payment-required classification, while 401/403/429 go through the
same message-building path as any other 4xx/5xx status. -/
theorem http_error_message_building (cfg : ClientCfg) (beh : Nat → AttemptOutcome)
    (url : String) (hmr : 0 < cfg.maxRetries) :
    (∀ r m, beh 0 = .response r → 400 ≤ r.status → r.status < 600 →
      (r.status == 402) = false →
      r.json = some (Json.obj [("error", Json.obj [("message", Json.str m)])]) →
      networkPost cfg beh url = (.apiError m, [])) ∧
    (∀ r, beh 0 = .response r → 400 ≤ r.status → r.status < 600 →
      (r.status == 402) = false → r.json = none →
      strContains (pyLower (pyTake r.body 500)) "data policy" = false →
      strContains (pyLower (pyTake r.body 500)) "privacy" = false →
      strContains (pyLower (pyTake r.body 500)) "credits" = false →
      strContains (pyLower (pyTake r.body 500)) "payment" = false →
      networkPost cfg beh url =
        (.apiError ("HTTP ошибка " ++ toString r.status ++ ": " ++ pyTake r.body 500),
         [])) ∧
    (∀ r, beh 0 = .response r → r.status = 402 → r.json = none →
      strContains (pyLower (pyTake r.body 500)) "data policy" = false →
      strContains (pyLower (pyTake r.body 500)) "privacy" = false →
      strContains (pyLower (pyTake r.body 500)) "credits" = false →
      strContains (pyLower (pyTake r.body 500)) "payment" = false →
      networkPost cfg beh url =
        (.apiError
          "Недостаточно кредитов. Пополните баланс: https://openrouter.ai/settings/credits",
         [])) := by
  refine ⟨?_, ?_, ?_⟩
  · intro r m h0 h4 h6 hbeq hj
    have hmsg : httpErrorMsg r = m := by
      simp only [httpErrorMsg]
      rw [hj, hbeq]
      rfl
    rw [networkPost_response0 cfg beh url r hmr h0 h4 h6, hmsg]
  · intro r h0 h4 h6 hbeq hj hp1 hp2 hp3 hp4
    have hmsg : httpErrorMsg r =
        "HTTP ошибка " ++ toString r.status ++ ": " ++ pyTake r.body 500 := by
      simp only [httpErrorMsg, fallbackText]
      rw [hj, hbeq, hp1, hp2, hp3, hp4]
      rfl
    rw [networkPost_response0 cfg beh url r hmr h0 h4 h6, hmsg]
  · intro r h0 hst hj hp1 hp2 hp3 hp4
    have hmsg : httpErrorMsg r =
        "Недостаточно кредитов. Пополните баланс: https://openrouter.ai/settings/credits" := by
      simp only [httpErrorMsg, fallbackText]
      rw [hj, hst, hp1, hp2, hp3, hp4]
      rfl
    rw [networkPost_response0 cfg beh url r hmr h0 (by omega) (by omega), hmsg]

/-- Witness for `http_error_message_building`: a 401 with an `error.message`
body, a 503 with a plain-text body, and a 402 with no matching phrases. -/
theorem http_error_message_building_witness :
    networkPost ⟨30, 3⟩ (fun _ => .response ⟨401, "application/json", "",
      some (Json.obj [("error", Json.obj [("message", Json.str "Invalid key")])])⟩)
      "u" = (.apiError "Invalid key", []) ∧
    networkPost ⟨30, 3⟩ (fun _ => .response ⟨503, "text/plain", "Service Unavailable",
      none⟩) "u" = (.apiError "HTTP ошибка 503: Service Unavailable", []) ∧
    networkPost ⟨30, 3⟩ (fun _ => .response ⟨402, "text/plain", "no", none⟩) "u" =
      (.apiError
        "Недостаточно кредитов. Пополните баланс: https://openrouter.ai/settings/credits",
       []) := by
  refine ⟨?_, ?_, ?_⟩
  · exact (http_error_message_building ⟨30, 3⟩ _ "u" (by norm_num)).1
      ⟨401, "application/json", "",
        some (Json.obj [("error", Json.obj [("message", Json.str "Invalid key")])])⟩
      "Invalid key" rfl (by norm_num) (by norm_num) rfl rfl
  · exact ((http_error_message_building ⟨30, 3⟩ _ "u" (by norm_num)).2.1
      ⟨503, "text/plain", "Service Unavailable", none⟩ rfl (by norm_num) (by norm_num)
      rfl rfl rfl rfl rfl rfl).trans rfl
  · exact (http_error_message_building ⟨30, 3⟩ _ "u" (by norm_num)).2.2
      ⟨402, "text/plain", "no", none⟩ rfl rfl rfl rfl rfl rfl rfl

/-- C4: a 2xx response whose declared content type or body shape indicates a
markup page (content type containing `text/html`, or stripped body starting
with `<!DOCTYPE` or `<html`) yields a malformed-response `APIError` and
never a success; likewise the OpenRouter adapter rejects a payload whose
`text` field holds markup. -/
theorem html_response_is_failure (cfg : ClientCfg) (beh : Nat → AttemptOutcome)
    (url : String) (r : HttpResponse) (hmr : 0 < cfg.maxRetries)
    (h0 : beh 0 = .response r) (h2 : 200 ≤ r.status) (h3 : r.status < 300)
    (hhtml : strContains (pyLower r.contentType) "text/html" = true ∨
      pyStartsWith (pyStrip r.body) "<!DOCTYPE" = true ∨
      pyStartsWith (pyStrip r.body) "<html" = true) :
    (networkPost cfg beh url =
      (.apiError (htmlHeaderMsg url (pyLower r.contentType) r.body), []) ∧
     ∀ j ds, networkPost cfg beh url ≠ (.ok j, ds)) ∧
    (∀ mn url2 resp s, resp.lookupKey "text" = some (Json.str s) →
      (pyStartsWith (pyStrip s) "<!DOCTYPE" = true ∨
       pyStartsWith (pyStrip s) "<html" = true) →
      parseOpenrouter mn url2 resp = .error (.api (orHtmlMsg url2 s))) := by
  have hmain : networkPost cfg beh url =
      (.apiError (htmlHeaderMsg url (pyLower r.contentType) r.body), []) := by
    rw [networkPost_success0 cfg beh url r hmr h0 (by omega)]
    unfold successResult
    rcases hhtml with h | h | h <;> simp [h]
  refine ⟨⟨hmain, ?_⟩, ?_⟩
  · intro j ds hcontra
    rw [hmain] at hcontra
    simp at hcontra
  · intro mn url2 resp s hl hsw
    cases resp with
    | obj fs =>
      have hk : (Json.obj fs).hasKey "text" = true := Json.hasKey_of_lookup hl
      unfold parseOpenrouter orHtmlCheck
      rw [hk]
      simp only [Json.getAttr, hl]
      rcases hsw with h | h <;> simp [h]
    | str s2 => exact absurd hl (by simp [Json.lookupKey])
    | num q => exact absurd hl (by simp [Json.lookupKey])
    | bool b => exact absurd hl (by simp [Json.lookupKey])
    | null => exact absurd hl (by simp [Json.lookupKey])
    | arr xs => exact absurd hl (by simp [Json.lookupKey])

/-- Witness for `html_response_is_failure`: a 200 response with an HTML
content type and body, and an OpenRouter payload whose `text` field holds
markup. -/
theorem html_response_is_failure_witness :
    networkPost ⟨30, 3⟩ (fun _ => .response ⟨200, "text/html; charset=utf-8",
      "<html><body>error page</body></html>", none⟩) "https://api.example" =
      (.apiError (htmlHeaderMsg "https://api.example" "text/html; charset=utf-8"
        "<html><body>error page</body></html>"), []) ∧
    parseOpenrouter "m" "https://api.example"
      (Json.obj [("text", Json.str "<html>oops</html>")]) =
      .error (.api (orHtmlMsg "https://api.example" "<html>oops</html>")) := by
  obtain ⟨⟨h1, _⟩, h2⟩ := html_response_is_failure ⟨30, 3⟩
    (fun _ => .response ⟨200, "text/html; charset=utf-8",
      "<html><body>error page</body></html>", none⟩) "https://api.example"
    ⟨200, "text/html; charset=utf-8", "<html><body>error page</body></html>", none⟩
    (by norm_num) rfl (by norm_num) (by norm_num) (Or.inl rfl)
  exact ⟨h1, h2 "m" "https://api.example"
    (Json.obj [("text", Json.str "<html>oops</html>")]) "<html>oops</html>" rfl (Or.inr rfl)⟩

/-- Counterexample for C5: a URL that contains `openrouter.ai` but does not
END in the canonical chat-completions path is nevertheless left unchanged,
because the code tests for the canonical path with a substring CONTAINS
check; the request is sent to the unrewritten URL. -/
theorem openrouter_url_counterexample :
    strContains (pyLower "https://openrouter.ai/api/v1/chat/completions/extra")
      "openrouter.ai" = true ∧
    pyEndsWith "https://openrouter.ai/api/v1/chat/completions/extra"
      "/api/v1/chat/completions" = false ∧
    "https://openrouter.ai/api/v1/chat/completions/extra" ≠ openrouterCanonical ∧
    openrouterFixUrl "https://openrouter.ai/api/v1/chat/completions/extra" =
      "https://openrouter.ai/api/v1/chat/completions/extra" ∧
    (sendToOpenrouter (fun _ => some "sk") (fun _ => .ok (Json.obj []))
      ⟨some "meta-llama/llama-3.3-70b-instruct",
       some "https://openrouter.ai/api/v1/chat/completions/extra",
       some "KEY", some "openrouter"⟩ "hi").2.map HttpRequest.url =
      ["https://openrouter.ai/api/v1/chat/completions/extra"] :=
  ⟨rfl, rfl, by decide, rfl, rfl⟩

/-- C5 (amended): the OpenRouter adapter rewrites the (stripped) endpoint
URL to `https://openrouter.ai/api/v1/chat/completions` whenever it contains
`openrouter.ai` but does not contain (hence in particular does not end in)
the canonical chat-completions path; for the endpoint URL
`https://openrouter.ai/llama-x` the request is sent to the canonical URL. -/
theorem openrouter_url_rewrite (url : String)
    (h1 : strContains (pyLower url) "openrouter.ai" = true)
    (h2 : strContains (pyLower url) "/api/v1/chat/completions" = false)
    (h3 : pyEndsWith url "/api/v1/chat/completions" = false) :
    openrouterFixUrl url = openrouterCanonical ∧
    (sendToOpenrouter (fun _ => some "sk") (fun _ => .ok (Json.obj []))
      ⟨some "meta-llama/llama-3.3-70b-instruct", some "https://openrouter.ai/llama-x",
       some "KEY", some "openrouter"⟩ "hi").2.map HttpRequest.url =
      [openrouterCanonical] := by
  constructor
  · unfold openrouterFixUrl
    rw [h1, h2, h3]
    cases hb : (strContains url "/" && decide (url.data.count '/' > 3)) <;> simp [hb]
  · rfl

/-- Witness for `openrouter_url_rewrite` at the spec's example URL. -/
theorem openrouter_url_rewrite_witness :
    openrouterFixUrl "https://openrouter.ai/llama-x" = openrouterCanonical ∧
    (sendToOpenrouter (fun _ => some "sk") (fun _ => .ok (Json.obj []))
      ⟨some "meta-llama/llama-3.3-70b-instruct", some "https://openrouter.ai/llama-x",
       some "KEY", some "openrouter"⟩ "hi").2.map HttpRequest.url =
      [openrouterCanonical] :=
  openrouter_url_rewrite "https://openrouter.ai/llama-x" rfl rfl rfl

/-- Counterexample for C6: the OpenAI adapter, given a payload with no
`choices` but a top-level `text` field, raises its unexpected-format
`APIError` instead of falling back to the `text` field — only the Generic
adapter implements the fallback chain. -/
theorem openai_fallback_counterexample :
    (sendToOpenai (fun _ => some "sk") (fun _ => .ok (Json.obj [("text", Json.str "hi")]))
      ⟨some "gpt-4", some "https://api.example/v1", some "KEY", some "openai"⟩ "hello").1 =
      .error (.api "Неожиданный формат ответа от OpenAI API") ∧
    (sendToOpenai (fun _ => some "sk") (fun _ => .ok (Json.obj [("text", Json.str "hi")]))
      ⟨some "gpt-4", some "https://api.example/v1", some "KEY", some "openai"⟩ "hello").1 ≠
      .ok (Json.str "hi") :=
  ⟨rfl, fun h => nomatch h⟩

/-- C6 (amended): only the Generic adapter implements the full fallback
chain — `choices[0].message.content`, then `choices[0].text`, then
top-level `text`, then `response`, finally the stringified payload — while
the OpenAI-style adapters (OpenAI, DeepSeek, Groq) fail with their
unexpected-format error whenever `choices` is absent, even if a usable
`text` field is present. -/
theorem response_fallback_chain :
    (∀ resp cs c0 m c, resp.lookupKey "choices" = some (Json.arr (c0 :: cs)) →
        c0.lookupKey "message" = some m → m.lookupKey "content" = some c →
        parseGeneric resp = .ok c) ∧
    (∀ resp cs fs0 t, resp.lookupKey "choices" = some (Json.arr (Json.obj fs0 :: cs)) →
        (Json.obj fs0).lookupKey "message" = none →
        (Json.obj fs0).lookupKey "text" = some t →
        parseGeneric resp = .ok t) ∧
    (∀ fs t, (Json.obj fs).lookupKey "choices" = none →
        (Json.obj fs).lookupKey "text" = some t →
        parseGeneric (Json.obj fs) = .ok t) ∧
    (∀ fs v, (Json.obj fs).lookupKey "choices" = none →
        (Json.obj fs).lookupKey "text" = none →
        (Json.obj fs).lookupKey "response" = some v →
        parseGeneric (Json.obj fs) = .ok v) ∧
    (∀ fs, (Json.obj fs).lookupKey "choices" = none →
        (Json.obj fs).lookupKey "text" = none →
        (Json.obj fs).lookupKey "response" = none →
        parseGeneric (Json.obj fs) = .ok (.str (Json.obj fs).pyStr)) ∧
    (∀ badFmt fs t, (Json.obj fs).lookupKey "choices" = none →
        (Json.obj fs).lookupKey "text" = some t →
        parseOpenaiStyle badFmt (Json.obj fs) = .error (.api badFmt)) := by
  refine ⟨?_, ?_, ?_, ?_, ?_, ?_⟩
  · intro resp cs c0 m c hch hm hc
    simp [parseGeneric, parseGenericChoices, Json.hasKey_of_lookup hch,
      Json.itemStr_of_lookup hch, Json.hasKey_of_lookup hm, Json.itemStr_of_lookup hm,
      Json.itemStr_of_lookup hc, Json.pyLen, Json.itemNat]
  · intro resp cs fs0 t hch hm ht
    simp [parseGeneric, parseGenericChoices, Json.hasKey_of_lookup hch,
      Json.itemStr_of_lookup hch, Json.hasKey_eq_false_of_lookup_none hm,
      Json.hasKey_of_lookup ht, Json.itemStr_of_lookup ht, Json.pyLen, Json.itemNat]
  · intro fs t hch ht
    simp [parseGeneric, parseGenericChoices, Json.hasKey_eq_false_of_lookup_none hch,
      Json.hasKey_of_lookup ht, Json.itemStr_of_lookup ht]
  · intro fs v hch ht hr
    simp [parseGeneric, parseGenericChoices, Json.hasKey_eq_false_of_lookup_none hch,
      Json.hasKey_eq_false_of_lookup_none ht, Json.hasKey_of_lookup hr,
      Json.itemStr_of_lookup hr]
  · intro fs hch ht hr
    simp [parseGeneric, parseGenericChoices, Json.hasKey_eq_false_of_lookup_none hch,
      Json.hasKey_eq_false_of_lookup_none ht, Json.hasKey_eq_false_of_lookup_none hr]
  · intro badFmt fs t hch ht
    simp [parseOpenaiStyle, Json.hasKey_eq_false_of_lookup_none hch]

/-- Witness for `response_fallback_chain`: each step of the fallback chain
at a concrete payload, and the OpenAI-style refusal on a `text`-only
payload. -/
theorem response_fallback_chain_witness :
    parseGeneric (Json.obj [("choices", Json.arr [Json.obj [("message",
        Json.obj [("content", Json.str "hi")])]])]) = .ok (Json.str "hi") ∧
    parseGeneric (Json.obj [("choices", Json.arr [Json.obj [("text",
        Json.str "t1")]])]) = .ok (Json.str "t1") ∧
    parseGeneric (Json.obj [("text", Json.str "t2")]) = .ok (Json.str "t2") ∧
    parseGeneric (Json.obj [("response", Json.str "t3")]) = .ok (Json.str "t3") ∧
    parseGeneric (Json.obj [("other", Json.str "x")]) =
      .ok (Json.str (Json.obj [("other", Json.str "x")]).pyStr) ∧
    parseOpenaiStyle "Неожиданный формат ответа от OpenAI API"
      (Json.obj [("text", Json.str "hi")]) =
      .error (.api "Неожиданный формат ответа от OpenAI API") := by
  obtain ⟨g1, g2, g3, g4, g5, g6⟩ := response_fallback_chain
  refine ⟨?_, ?_, ?_, ?_, ?_, ?_⟩
  · exact g1 _ [] (Json.obj [("message", Json.obj [("content", Json.str "hi")])])
      (Json.obj [("content", Json.str "hi")]) (Json.str "hi") rfl rfl rfl
  · exact g2 _ [] [("text", Json.str "t1")] (Json.str "t1") rfl rfl rfl
  · exact g3 _ (Json.str "t2") rfl rfl
  · exact g4 _ (Json.str "t3") rfl rfl rfl
  · exact g5 _ rfl rfl rfl
  · exact g6 _ _ (Json.str "hi") rfl rfl

/-- Counterexample for C7: the OpenAI adapter, given a payload carrying both
an explicit `error` field and a `choices` field, returns the extracted
content as a success — the error field takes precedence only in the
OpenRouter adapter. -/
theorem openai_error_ignored_counterexample :
    (sendToOpenai (fun _ => some "sk")
      (fun _ => .ok (Json.obj
        [("error", Json.obj [("message", Json.str "bad key")]),
         ("choices", Json.arr [Json.obj [("message",
           Json.obj [("content", Json.str "hi")])]])]))
      ⟨some "gpt-4", some "https://api.example/v1", some "KEY", some "openai"⟩
      "hello").1 = .ok (Json.str "hi") ∧
    (sendToOpenai (fun _ => some "sk")
      (fun _ => .ok (Json.obj
        [("error", Json.obj [("message", Json.str "bad key")]),
         ("choices", Json.arr [Json.obj [("message",
           Json.obj [("content", Json.str "hi")])]])]))
      ⟨some "gpt-4", some "https://api.example/v1", some "KEY", some "openai"⟩
      "hello").1 ≠ .error (.api "Ошибка от OpenRouter API: bad key") :=
  ⟨rfl, fun h => nomatch h⟩

/-- C7 (amended): only the OpenRouter adapter gives an explicit `error`
field precedence over content extraction — yielding the provider-error
`APIError` built from `error.message` even when `choices` is present —
while the OpenAI-style adapters ignore an `error` field and return the
extracted content. -/
theorem error_field_precedence :
    (∀ mn url resp fs s, resp.isObj = true → resp.lookupKey "text" = none →
      resp.lookupKey "error" = some (Json.obj fs) →
      (Json.obj fs).lookupKey "message" = some (Json.str s) →
      parseOpenrouter mn url resp =
        .error (.api ("Ошибка от OpenRouter API: " ++ s))) ∧
    (∀ badFmt resp e cs c0 m c,
      resp.lookupKey "error" = some e →
      resp.lookupKey "choices" = some (Json.arr (c0 :: cs)) →
      c0.lookupKey "message" = some m → m.lookupKey "content" = some c →
      parseOpenaiStyle badFmt resp = .ok c) := by
  constructor
  · intro mn url resp fs s hobj ht herr hmsg
    cases resp with
    | obj rfs =>
      simp [parseOpenrouter, orHtmlCheck, Json.hasKey_eq_false_of_lookup_none ht,
        Json.hasKey_of_lookup herr, Json.getAttr, herr, hmsg, Json.pyStr]
    | str s2 => simp [Json.isObj] at hobj
    | num q => simp [Json.isObj] at hobj
    | bool b => simp [Json.isObj] at hobj
    | null => simp [Json.isObj] at hobj
    | arr xs => exact absurd herr (by simp [Json.lookupKey])
  · intro badFmt resp e cs c0 m c herr hch hm hc
    simp [parseOpenaiStyle, Json.hasKey_of_lookup hch, Json.itemStr_of_lookup hch,
      Json.hasKey_of_lookup hm, Json.itemStr_of_lookup hm, Json.itemStr_of_lookup hc,
      Json.pyLen, Json.itemNat]

/-- Witness for `error_field_precedence` on the payload carrying both
`error` and `choices` fields. -/
theorem error_field_precedence_witness :
    parseOpenrouter "m" "u" (Json.obj
      [("error", Json.obj [("message", Json.str "bad key")]),
       ("choices", Json.arr [Json.obj [("message",
         Json.obj [("content", Json.str "hi")])]])]) =
      .error (.api ("Ошибка от OpenRouter API: " ++ "bad key")) ∧
    parseOpenaiStyle "Неожиданный формат ответа от OpenAI API" (Json.obj
      [("error", Json.obj [("message", Json.str "bad key")]),
       ("choices", Json.arr [Json.obj [("message",
         Json.obj [("content", Json.str "hi")])]])]) = .ok (Json.str "hi") := by
  obtain ⟨p1, p2⟩ := error_field_precedence
  refine ⟨?_, ?_⟩
  · exact p1 "m" "u" _ [("message", Json.str "bad key")] "bad key" rfl rfl rfl rfl
  · exact p2 _ _ (Json.obj [("message", Json.str "bad key")]) []
      (Json.obj [("message", Json.obj [("content", Json.str "hi")])])
      (Json.obj [("content", Json.str "hi")]) (Json.str "hi") rfl rfl rfl rfl

/-- Counterexample for C8: when the environment DOES bind the slash-bearing
name `meta-llama/llama-3`, the dispatcher resolves the credential, proceeds
to the network call (one request is issued) and returns a success — no
ConfigurationError is raised, so the slash alone does not trigger it. -/
theorem slash_api_id_counterexample :
    (send_prompt_to_model
      (fun n => if n == "meta-llama/llama-3" then some "sk-test" else none)
      (fun _ => .ok (Json.obj [("text", Json.str "ok!")]))
      ⟨some "m", some "https://x.example/v1", some "meta-llama/llama-3", some ""⟩
      "hi").1 = .ok (Json.str "ok!") ∧
    (send_prompt_to_model
      (fun n => if n == "meta-llama/llama-3" then some "sk-test" else none)
      (fun _ => .ok (Json.obj [("text", Json.str "ok!")]))
      ⟨some "m", some "https://x.example/v1", some "meta-llama/llama-3", some ""⟩
      "hi").2.length = 1 :=
  ⟨rfl, rfl⟩

/-- The credential prelude fails with the model-identifier message when the
configured name contains a path separator and the environment lookup is
falsy. -/
theorem requireApiKey_slash (env : String → Option String) (model : ModelCfg)
    (h1 : (pyStrip (model.api_id.getD "") == "") = false)
    (h2 : (pyStrip (pyStrip (model.api_id.getD "")) == "") = false)
    (hsl : strContains (pyStrip (model.api_id.getD "")) "/" = true ∨
           strContains (pyStrip (model.api_id.getD "")) "\\" = true)
    (henv : pyFalsyStrOpt (env (pyStrip (pyStrip (model.api_id.getD "")))) = true) :
    requireApiKey env model =
      .error (.api (looksLikeModelMsg (pyStrip (model.api_id.getD "")))) := by
  rcases hsl with h | h <;>
    simp [requireApiKey, get_api_key, h1, h2, henv, h]

/-- C8 (amended): for every endpoint whose configured credential name
(trimmed) contains a path separator and is not bound to a non-empty value
in the environment, every adapter fails with the model-identifier
`ConfigurationError` message — which differs from the generic
missing-credential message — and no network request is issued. -/
theorem slash_api_id_config_error (env : String → Option String)
    (net : HttpRequest → PostResult) (model : ModelCfg) (prompt : String)
    (h1 : (pyStrip (model.api_id.getD "") == "") = false)
    (h2 : (pyStrip (pyStrip (model.api_id.getD "")) == "") = false)
    (hsl : strContains (pyStrip (model.api_id.getD "")) "/" = true ∨
           strContains (pyStrip (model.api_id.getD "")) "\\" = true)
    (henv : pyFalsyStrOpt (env (pyStrip (pyStrip (model.api_id.getD "")))) = true) :
    send_prompt_to_model env net model prompt =
      (.error (.api (looksLikeModelMsg (pyStrip (model.api_id.getD "")))), []) ∧
    looksLikeModelMsg "meta-llama/llama-3" ≠ keyNotFoundMsg "meta-llama/llama-3" := by
  have hreq := requireApiKey_slash env model h1 h2 hsl henv
  constructor
  · simp only [send_prompt_to_model]
    split_ifs
    · unfold sendToOpenrouter; rw [hreq]
    · unfold sendToOpenai; rw [hreq]
    · unfold sendToDeepseek; rw [hreq]
    · unfold sendToGroq; rw [hreq]
    · unfold sendGeneric; rw [hreq]
  · decide

/-- Witness for `slash_api_id_config_error` at the spec's example name with
an empty environment. -/
theorem slash_api_id_config_error_witness :
    send_prompt_to_model (fun _ => none) (fun _ => .ok (Json.obj []))
      ⟨some "m", some "https://x.example/v1", some "meta-llama/llama-3", some ""⟩ "hi" =
      (.error (.api (looksLikeModelMsg (pyStrip ((some "meta-llama/llama-3").getD "")))),
       []) ∧
    looksLikeModelMsg "meta-llama/llama-3" ≠ keyNotFoundMsg "meta-llama/llama-3" :=
  slash_api_id_config_error (fun _ => none) (fun _ => .ok (Json.obj []))
    ⟨some "m", some "https://x.example/v1", some "meta-llama/llama-3", some ""⟩ "hi"
    rfl rfl (Or.inl rfl) rfl

/-- C9: if the environment does bind a (trimmed) credential name that
contains a path separator to a non-empty value, `get_api_key` returns that
value and raises no configuration error — the path-separator check fires
only when the lookup fails. -/
theorem slash_env_hit_resolves (env : String → Option String) (api_id v : String)
    (h1 : (api_id == "") = false) (h2 : (pyStrip api_id == "") = false)
    (h3 : env (pyStrip api_id) = some v) (h4 : (v == "") = false)
    (_hsl : strContains api_id "/" = true ∨ strContains api_id "\\" = true) :
    get_api_key env api_id = .ok (some v) := by
  unfold get_api_key
  rw [h1, h2]
  simp only [Bool.or_self, Bool.or_false, Bool.false_or, if_false]
  rw [h3]
  simp [pyFalsyStrOpt, h4]

/-- Witness for `slash_env_hit_resolves` at the spec's example name. -/
theorem slash_env_hit_resolves_witness :
    strContains "meta-llama/llama-3" "/" = true ∧
    get_api_key (fun n => if n == "meta-llama/llama-3" then some "sk-or-v1" else none)
      "meta-llama/llama-3" = .ok (some "sk-or-v1") := by
  refine ⟨rfl, ?_⟩
  exact slash_env_hit_resolves _ "meta-llama/llama-3" "sk-or-v1" rfl rfl rfl rfl (Or.inl rfl)

/-- C10: a 2xx response whose body is neither valid JSON nor markup is
returned as a success wrapping the raw body text in a single-field
dictionary, not reported as a malformed response. -/
theorem non_json_body_wrapped (cfg : ClientCfg) (beh : Nat → AttemptOutcome)
    (url : String) (r : HttpResponse) (hmr : 0 < cfg.maxRetries)
    (h0 : beh 0 = .response r) (h2 : 200 ≤ r.status) (h3 : r.status < 300)
    (hj : r.json = none)
    (hct : strContains (pyLower r.contentType) "text/html" = false)
    (hb1 : pyStartsWith (pyStrip r.body) "<!DOCTYPE" = false)
    (hb2 : pyStartsWith (pyStrip r.body) "<html" = false) :
    networkPost cfg beh url = (.ok (Json.obj [("text", Json.str r.body)]), []) := by
  rw [networkPost_success0 cfg beh url r hmr h0 (by omega)]
  unfold successResult
  simp [hct, hb1, hb2, hj]

/-- Witness for `non_json_body_wrapped` on a plain-text 200 response. -/
theorem non_json_body_wrapped_witness :
    networkPost ⟨30, 3⟩ (fun _ => .response ⟨200, "text/plain", "plain body", none⟩) "u" =
      (.ok (Json.obj [("text", Json.str "plain body")]), []) :=
  non_json_body_wrapped ⟨30, 3⟩ _ "u" ⟨200, "text/plain", "plain body", none⟩
    (by norm_num) rfl (by norm_num) (by norm_num) rfl rfl rfl rfl
